import Mathlib

/-!
Shallow embedding of `custom_components/broadlink_cover/cover.py`
(class `BroadlinkRFTimeCover`).

The cover keeps a position estimate in [0,100] (0 = closed, 100 = open),
drives it with timed linear interpolation, and talks to an RF transmitter
through fire-and-forget pulses.  Python floats are modelled as `ℚ`
(the arithmetic involved is exact: sums, products, divisions and `min`/`max`
of decimal constants), directions and command keys as the `String`s the
source uses, and the asyncio task machinery as explicit state:

* `SysState.task` is the live `_timed_move` task object (if any), with a
  `cancelRequested` flag: `Task.cancel()` only requests cancellation; the
  except/finally cleanup of the task runs when the task is next scheduled,
  modelled by the separate step `cancelCleanup`.
* `SysState.handleSet` is whether `self._move_task` currently references
  that task (`async_stop_cover` sets the reference to `None` while the
  cancelled task is still pending its cleanup).
* The command sink (`hass.services.async_call`, `blocking=True`) is a
  parameter `sink : String → String → Except String Unit` taking the device
  name and command name; a raised exception is the `.error` case.
  Each operation returns the list of command *keys* it dispatched.
-/

namespace BroadlinkCover

/-- Python `round` on a rational: round half to even, returning an integer
(`round(self._position)` in `_move_cover`). -/
def pyRound (q : ℚ) : ℤ :=
  let f := ⌊q⌋
  let frac := q - f
  if frac < 1/2 then f
  else if 1/2 < frac then f + 1
  else if f % 2 = 0 then f else f + 1

/-- The `_timed_move` task object: arguments captured at task creation
(`start_position` is read from `self._position` when the task body starts,
which is the bumped position recorded by `_move_cover`), plus whether
`cancel()` has been requested on it. -/
structure MoveTask where
  startPosition : ℚ
  target : ℚ
  duration : ℚ
  cancelRequested : Bool
deriving Repr, DecidableEq

/-- The mutable fields of `BroadlinkRFTimeCover` relevant to move control:
`_position`, `_is_moving`, `_is_opening`, `_is_closing`, `_last_direction`,
and the `_move_task` machinery (see module docstring). -/
structure SysState where
  position : ℚ
  isMoving : Bool
  isOpening : Bool
  isClosing : Bool
  lastDirection : Option String
  task : Option MoveTask
  handleSet : Bool
deriving Repr, DecidableEq

/-- Configuration: the `commands` dict (`device` plus the three command
names) and the two traverse times `open_time` / `close_time`. -/
structure Config where
  device : Option String
  openCmd : Option String
  closeCmd : Option String
  stopCmd : Option String
  openTime : ℚ
  closeTime : ℚ
deriving Repr, DecidableEq

/-- `self._commands.get(command_key)` for the three command keys. -/
def cmdName (cfg : Config) (key : String) : Option String :=
  if key = "open" then cfg.openCmd
  else if key = "close" then cfg.closeCmd
  else if key = "stop" then cfg.stopCmd
  else none

/-- `_send_code`: if the device or the command name is missing, log and
return without sending (`.ok []`); otherwise call the sink (which may
raise).  On success the result records the dispatched command key. -/
def sendCode (cfg : Config) (sink : String → String → Except String Unit)
    (key : String) : Except String (List String) :=
  match cfg.device, cmdName cfg key with
  | some d, some c =>
    match sink d c with
    | .ok _ => .ok [key]
    | .error e => .error e
  | _, _ => .ok []

/-- `self._move_task.cancel()` followed by `self._move_task = None`:
requests cancellation on the live task and drops the reference.  The
task's cleanup has NOT run yet. -/
def markCancelled (s : SysState) : SysState :=
  { s with task := s.task.map (fun t => { t with cancelRequested := true }),
           handleSet := false }

/-- The `except asyncio.CancelledError` / `finally` tail of `_timed_move`,
run when a cancel-requested task is next scheduled: reconcile
`position = start_position + position_delta * min(1, elapsed/duration)`,
then clear the moving/direction flags.  A task without a pending
cancellation request is left alone. -/
def cancelCleanup (s : SysState) (elapsed : ℚ) : SysState :=
  match s.task with
  | none => s
  | some t =>
    if t.cancelRequested then
      { s with
        position := t.startPosition
          + (t.target - t.startPosition) * min 1 (elapsed / t.duration),
        isMoving := false, isOpening := false, isClosing := false,
        task := none, handleSet := false }
    else s

/-- The stop-pulse step of `async_stop_cover`: send "stop" unless the
(pre-cleanup) position is exactly 0 or 100. -/
def stopPulseResult (cfg : Config)
    (sink : String → String → Except String Unit) (s0 : SysState) :
    Except String (List String) :=
  if s0.position ≠ 0 ∧ s0.position ≠ 100
  then sendCode cfg sink "stop" else .ok []

/-- `async_stop_cover`: cancel the move task (without awaiting it), then
send a "stop" pulse unless the (pre-cleanup) position is exactly 0 or 100,
then clear the flags.  The flag clears come after the awaited send with no
try/finally, so when the stop dispatch raises, the error propagates with
the flags left untouched.  The cancelled task's reconciliation is still
pending when this returns. -/
def asyncStopCover (cfg : Config) (sink : String → String → Except String Unit)
    (s : SysState) : SysState × Except String (List String) :=
  let s0 := if s.handleSet then markCancelled s else s
  match stopPulseResult cfg sink s0 with
  | .error e => (s0, .error e)
  | .ok sent =>
    ({ s0 with isMoving := false, isOpening := false, isClosing := false },
      .ok sent)

/-- `_calculate_duration`: `(distance / 100) * traverse_time`, where the
distance is `target - position` for "open" and `position - target`
otherwise, evaluated at the current (already bumped) position. -/
def calculateDuration (cfg : Config) (direction : String)
    (targetPosition position : ℚ) : ℚ :=
  if direction = "open" then (targetPosition - position) / 100 * cfg.openTime
  else (position - targetPosition) / 100 * cfg.closeTime

/-- `_move_cover`: cancel and *await* any active move (so its cleanup runs,
with `elapsedPrev` seconds elapsed, before the current position is read);
skip entirely if the target equals the rounded current position; send the
directional pulse (propagating a sink failure, with no state change past
that point); set the flags; apply the instant ±1 bump clamped to [0,100];
compute the duration from the bumped position (floored at 0.1); and record
the new `_timed_move` task. -/
def moveCover (cfg : Config) (sink : String → String → Except String Unit)
    (s : SysState) (elapsedPrev : ℚ) (direction : String)
    (targetPosition : ℚ) : SysState × Except String (List String) :=
  let s0 := if s.handleSet then cancelCleanup (markCancelled s) elapsedPrev else s
  if targetPosition = (pyRound s0.position : ℚ) then (s0, .ok [])
  else
    match sendCode cfg sink direction with
    | .error e => (s0, .error e)
    | .ok sent =>
      let s1 := { s0 with
        isMoving := true,
        lastDirection := some direction,
        isOpening := direction == "open",
        isClosing := direction == "close" }
      let bump : ℚ := if direction = "open" then 1 else -1
      let s2 := { s1 with position := max 0 (min 100 (s1.position + bump)) }
      let d0 := calculateDuration cfg direction targetPosition s2.position
      let d := if d0 ≤ 0 then 1/10 else d0
      ({ s2 with task := some ⟨s2.position, targetPosition, d, false⟩,
                 handleSet := true }, .ok sent)

/-- `steps = max(1, int(duration / update_interval))` with the 0.25 s tick
(`int` truncates toward zero; after the `max` with 1 this agrees with the
floor for every duration). -/
def pySteps (duration : ℚ) : ℕ :=
  max 1 (Int.toNat ⌊duration / (1/4)⌋)

/-- The interpolation loop of `_timed_move`, run for `k` of the `steps`
ticks: each tick sets
`position = start_position + position_delta * (step / steps)`. -/
def runTicks (s : SysState) (startPosition positionDelta : ℚ)
    (steps : ℕ) : ℕ → SysState
  | 0 => s
  | k + 1 =>
    { runTicks s startPosition positionDelta steps k with
      position := startPosition + positionDelta * ((k + 1 : ℚ) / steps) }

/-- `_timed_move` running all its ticks without cancellation: after the
loop, force `position = target_position`, send a "stop" pulse unless the
position is exactly 0 or 100, and clear the flags in the `finally`
block (which runs even if the stop pulse raises). -/
def timedMoveComplete (cfg : Config)
    (sink : String → String → Except String Unit) (s : SysState)
    (duration targetPosition : ℚ) : SysState × Except String (List String) :=
  let steps := pySteps duration
  let startPosition := s.position
  let positionDelta := targetPosition - startPosition
  let s1 := runTicks s startPosition positionDelta steps steps
  let s2 := { s1 with position := targetPosition }
  let res := if s2.position ≠ 0 ∧ s2.position ≠ 100
    then sendCode cfg sink "stop" else .ok []
  ({ s2 with isMoving := false, isOpening := false, isClosing := false,
             task := none, handleSet := false }, res)

/-- `async_added_to_hass`: the restored state is `none` (no last state), or
a pair of its `state` string and the `current_position` attribute; the
attribute is `none` when absent (then `attributes.get` supplies the
default 0), `some none` when present but not parsable by `int(...)`, and
`some (some n)` when it parses to `n`.  `current` is `self._position`
before the restore (0 from `__init__`). -/
def restorePosition (lastState : Option (String × Option (Option ℤ)))
    (current : ℚ) : ℚ :=
  match lastState with
  | none => current
  | some (st, attr) =>
    if st = "unknown" then current
    else
      match attr with
      | none => 0
      | some none => 0
      | some (some n) => (n : ℚ)

/-- The flag invariant: `_is_opening` and `_is_closing` never both set, and
both clear whenever `_is_moving` is clear. -/
def flagsOk (s : SysState) : Bool :=
  (!(s.isOpening && s.isClosing))
    && (s.isMoving || (!s.isOpening && !s.isClosing))

/-- `DEBOUNCE_DELAY = 2.5` seconds. -/
def DEBOUNCE_DELAY : ℚ := 5/2

/-- The debounce fields of the entity: `_last_debounce_time`,
`_debounce_target_position`, and the token (creation timestamp) of the
pending `_delayed_set` task, if one is scheduled. -/
structure DebState where
  lastDebounceTime : ℚ
  debounceTarget : ℚ
  pending : Option ℚ
deriving Repr, DecidableEq

/-- The synchronous part of `async_set_cover_position`: record the target
and a fresh timestamp, cancel any pending `_delayed_set` task, and schedule
a new one carrying the fresh timestamp as its token. -/
def setCoverPosition (s : DebState) (now position : ℚ) : DebState :=
  { lastDebounceTime := now, debounceTarget := position, pending := some now }

/-- A burst of `async_set_cover_position` calls, in arrival order; each
request is a `(timestamp, target)` pair. -/
def processBurst (s : DebState) (reqs : List (ℚ × ℚ)) : DebState :=
  reqs.foldl (fun acc r => setCoverPosition acc r.1 r.2) s

/-- The body of `_delayed_set` after its sleep: discard if a newer request
has replaced `_last_debounce_time`; otherwise pick the direction by
comparing the recorded target with the cover position and hand
`(direction, target)` to `_move_cover`. -/
def delayedSetFire (s : DebState) (token coverPos : ℚ) :
    Option (String × ℚ) :=
  if token ≠ s.lastDebounceTime then none
  else some ((if s.debounceTarget > coverPos then "open" else "close"),
    s.debounceTarget)

/-- Which of the burst's `_delayed_set` tasks reach their staleness check
(tokens of tasks not cancelled while sleeping): a non-final task sleeps
until its timestamp plus the delay and is cancelled by the next request if
that request arrives earlier; the final task, with no later request, always
wakes. -/
def burstFireTokens (delay : ℚ) : List (ℚ × ℚ) → List ℚ
  | [] => []
  | [r] => [r.1]
  | r :: r2 :: rest =>
    (if r2.1 < r.1 + delay then [] else [r.1])
      ++ burstFireTokens delay (r2 :: rest)

/-- A fully populated `commands` configuration, 15 s traverse times (the
defaults of `async_setup_entry`). -/
def cfgFull : Config :=
  ⟨some "dev", some "OPEN", some "CLOSE", some "STOP", 15, 15⟩

/-- A command sink whose dispatch always succeeds. -/
def sinkOk : String → String → Except String Unit := fun _ _ => .ok ()

/-- A command sink whose dispatch always raises. -/
def sinkFail : String → String → Except String Unit :=
  fun _ _ => .error "dispatch failed"

/-- The state right after `__init__`. -/
def initState : SysState :=
  ⟨0, false, false, false, none, none, false⟩

/-- A cover string is never both "open" and "close". -/
theorem beq_open_and_close_false (d : String) :
    ((d == "open") && (d == "close")) = false := by
  by_cases h : d = "open"
  · subst h; rfl
  · simp [beq_eq_false_iff_ne.mpr h]

/-- C1: a timed move started at `startPosition` toward `target` with
duration `duration`, cancelled after elapsed time `e`, is reconciled by the
cancellation handler to
`startPosition + (target - startPosition) * min 1 (e / duration)`, and that
value lies in [0,100]. -/
theorem c1_cancel_reconciliation (s : SysState) (t : MoveTask) (e : ℚ)
    (htask : s.task = some t) (hcr : t.cancelRequested = true)
    (hs0 : 0 ≤ t.startPosition) (hs1 : t.startPosition ≤ 100)
    (ht0 : 0 ≤ t.target) (ht1 : t.target ≤ 100)
    (he : 0 ≤ e) (hd : 0 < t.duration) :
    (cancelCleanup s e).position
      = t.startPosition + (t.target - t.startPosition) * min 1 (e / t.duration)
    ∧ 0 ≤ (cancelCleanup s e).position
    ∧ (cancelCleanup s e).position ≤ 100 := by
  have hpos : (cancelCleanup s e).position
      = t.startPosition
        + (t.target - t.startPosition) * min 1 (e / t.duration) := by
    simp [cancelCleanup, htask, hcr]
  have hp0 : 0 ≤ min 1 (e / t.duration) :=
    le_min (by norm_num) (div_nonneg he hd.le)
  have hp1 : min 1 (e / t.duration) ≤ 1 := min_le_left _ _
  refine ⟨hpos, ?_, ?_⟩
  · rw [hpos]
    nlinarith [mul_nonneg ht0 hp0, mul_nonneg hs0 (sub_nonneg.mpr hp1)]
  · rw [hpos]
    nlinarith [mul_nonneg (sub_nonneg.mpr ht1) hp0,
      mul_nonneg (sub_nonneg.mpr hs1) (sub_nonneg.mpr hp1)]

/-- Witness for C1 at a concrete cancelled move (start 1, target 100,
duration 5 s, cancelled after 1 s). -/
theorem c1_witness :
    (cancelCleanup ⟨1, true, true, false, some "open",
        some ⟨1, 100, 5, true⟩, true⟩ 1).position
      = 1 + (100 - 1) * min 1 ((1 : ℚ) / 5)
    ∧ 0 ≤ (cancelCleanup ⟨1, true, true, false, some "open",
        some ⟨1, 100, 5, true⟩, true⟩ 1).position
    ∧ (cancelCleanup ⟨1, true, true, false, some "open",
        some ⟨1, 100, 5, true⟩, true⟩ 1).position ≤ 100 :=
  c1_cancel_reconciliation _ ⟨1, 100, 5, true⟩ 1 rfl rfl (by norm_num)
    (by norm_num) (by norm_num) (by norm_num) (by norm_num) (by norm_num)

/-- C2: a timed move that runs all its ticks to completion without being
cancelled ends with the position equal to the target exactly and with the
moving flag cleared. -/
theorem c2_completion_exact (cfg : Config)
    (sink : String → String → Except String Unit) (s : SysState)
    (duration targetPosition : ℚ)
    (h0 : 0 ≤ targetPosition) (h1 : targetPosition ≤ 100) :
    (timedMoveComplete cfg sink s duration targetPosition).1.position
        = targetPosition
    ∧ (timedMoveComplete cfg sink s duration targetPosition).1.isMoving
        = false :=
  ⟨rfl, rfl⟩

/-- Witness for C2 at a concrete completed move (target 50, duration 5 s). -/
theorem c2_witness :
    (timedMoveComplete cfgFull sinkOk initState 5 50).1.position = 50
    ∧ (timedMoveComplete cfgFull sinkOk initState 5 50).1.isMoving = false :=
  c2_completion_exact cfgFull sinkOk initState 5 50 (by norm_num) (by norm_num)

/-- C7: an uncancelled completed move sends the "stop" pulse exactly when
its target is an interior position: one "stop" dispatch for a target
strictly between 0 and 100, none for a target of exactly 0 or 100
(given a fully configured stop command and a succeeding sink). -/
theorem c7_endpoint_stop_suppression (cfg : Config)
    (sink : String → String → Except String Unit) (s : SysState)
    (duration targetPosition : ℚ) (dv c : String)
    (hdev : cfg.device = some dv) (hstop : cfg.stopCmd = some c)
    (hsink : sink dv c = .ok ()) :
    (0 < targetPosition → targetPosition < 100 →
      (timedMoveComplete cfg sink s duration targetPosition).2 = .ok ["stop"])
    ∧ (targetPosition = 0 ∨ targetPosition = 100 →
      (timedMoveComplete cfg sink s duration targetPosition).2 = .ok []) := by
  have hsend : sendCode cfg sink "stop" = .ok ["stop"] := by
    have hc : cmdName cfg "stop" = some c := by
      simpa [cmdName] using hstop
    simp [sendCode, hdev, hc, hsink]
  constructor
  · intro hlo hhi
    have hne : targetPosition ≠ 0 ∧ targetPosition ≠ 100 :=
      ⟨ne_of_gt hlo, ne_of_lt hhi⟩
    simp [timedMoveComplete, hne.1, hne.2, hsend]
  · intro hend
    rcases hend with h | h <;> simp [timedMoveComplete, h]

/-- Witness for C7: target 50 sends one "stop", target 100 sends none. -/
theorem c7_witness :
    (timedMoveComplete cfgFull sinkOk initState 5 50).2 = .ok ["stop"]
    ∧ (timedMoveComplete cfgFull sinkOk initState 15 100).2 = .ok [] :=
  ⟨(c7_endpoint_stop_suppression cfgFull sinkOk initState 5 50 "dev" "STOP"
      rfl rfl rfl).1 (by norm_num) (by norm_num),
   (c7_endpoint_stop_suppression cfgFull sinkOk initState 15 100 "dev" "STOP"
      rfl rfl rfl).2 (Or.inr rfl)⟩

/-- A cover mid-move: position 1 (just bumped, no tick yet), opening toward
100 with a 5 s duration, live task referenced by `_move_task`. -/
def stopCexState : SysState :=
  ⟨1, true, true, false, some "open", some ⟨1, 100, 5, false⟩, true⟩

/-- C3 counterexample: stopping `stopCexState` after 1 s of elapsed travel
leaves the position at 1, not at the reconciled value
`1 + (100 - 1) * min 1 (1/5) = 20.8`, and the cancelled task's cleanup is
still pending when `async_stop_cover` returns — the caller does not observe
the reconciled position. -/
theorem c3_counterexample :
    (asyncStopCover cfgFull sinkOk stopCexState).1.position
        ≠ 1 + (100 - 1) * min 1 ((1 : ℚ) / 5)
    ∧ (asyncStopCover cfgFull sinkOk stopCexState).1.task
        = some ⟨1, 100, 5, true⟩ := by
  have hc : cmdName cfgFull "stop" = some "STOP" := by decide
  have hs : sendCode cfgFull sinkOk "stop" = .ok ["stop"] := by
    rw [sendCode, hc, show cfgFull.device = some "dev" from rfl]
    rfl
  have hsend : stopPulseResult cfgFull sinkOk (markCancelled stopCexState)
      = .ok ["stop"] := by
    rw [stopPulseResult]
    show (if (1 : ℚ) ≠ 0 ∧ (1 : ℚ) ≠ 100
      then sendCode cfgFull sinkOk "stop" else Except.ok []) = .ok ["stop"]
    rw [if_pos (show (1 : ℚ) ≠ 0 ∧ (1 : ℚ) ≠ 100 by norm_num), hs]
  have h : asyncStopCover cfgFull sinkOk stopCexState
      = (⟨1, false, false, false, some "open", some ⟨1, 100, 5, true⟩, false⟩,
          .ok ["stop"]) := by
    rw [asyncStopCover, if_pos (show stopCexState.handleSet = true from rfl),
      hsend]
    rfl
  rw [h]
  constructor
  · show (1 : ℚ) ≠ 1 + (100 - 1) * min 1 ((1 : ℚ) / 5)
    norm_num
  · rfl

/-- C3 amended: `async_stop_cover` requests cancellation of the active move
without awaiting its cleanup: it returns with the position still at its
pre-cancellation value, decides the stop pulse from that stale position,
and leaves the cancel-requested task pending; the reconciliation to
`startPosition + (target - startPosition) * min 1 (e / duration)` happens
only when the cancelled task next runs its cleanup. -/
theorem c3_stop_defers_reconciliation (cfg : Config)
    (sink : String → String → Except String Unit) (s : SysState)
    (t : MoveTask) (e : ℚ)
    (htask : s.task = some t) (hhandle : s.handleSet = true) :
    (asyncStopCover cfg sink s).1.position = s.position
    ∧ (asyncStopCover cfg sink s).1.task
        = some { t with cancelRequested := true }
    ∧ (asyncStopCover cfg sink s).2
        = (if s.position ≠ 0 ∧ s.position ≠ 100
            then sendCode cfg sink "stop" else .ok [])
    ∧ (cancelCleanup (asyncStopCover cfg sink s).1 e).position
        = t.startPosition
          + (t.target - t.startPosition) * min 1 (e / t.duration) := by
  have hstep : asyncStopCover cfg sink s
      = match stopPulseResult cfg sink (markCancelled s) with
        | .error err => (markCancelled s, .error err)
        | .ok sent =>
          ({ markCancelled s with
              isMoving := false, isOpening := false, isClosing := false },
            .ok sent) := by
    rw [asyncStopCover, if_pos hhandle]
  have hpulse : stopPulseResult cfg sink (markCancelled s)
      = (if s.position ≠ 0 ∧ s.position ≠ 100
          then sendCode cfg sink "stop" else .ok []) := rfl
  cases hsc : stopPulseResult cfg sink (markCancelled s) with
  | error err =>
    rw [hstep, hsc]
    refine ⟨rfl, by simp [markCancelled, htask], by rw [← hpulse, hsc], ?_⟩
    simp [cancelCleanup, markCancelled, htask]
  | ok sent =>
    rw [hstep, hsc]
    refine ⟨rfl, by simp [markCancelled, htask], by rw [← hpulse, hsc], ?_⟩
    simp [cancelCleanup, markCancelled, htask]

/-- Witness for C3 (amended) at the concrete mid-move state. -/
theorem c3_witness :
    (asyncStopCover cfgFull sinkOk stopCexState).1.position
        = stopCexState.position
    ∧ (asyncStopCover cfgFull sinkOk stopCexState).1.task
        = some { (⟨1, 100, 5, false⟩ : MoveTask) with cancelRequested := true }
    ∧ (asyncStopCover cfgFull sinkOk stopCexState).2
        = (if stopCexState.position ≠ 0 ∧ stopCexState.position ≠ 100
            then sendCode cfgFull sinkOk "stop" else .ok [])
    ∧ (cancelCleanup (asyncStopCover cfgFull sinkOk stopCexState).1 1).position
        = 1 + (100 - 1) * min 1 ((1 : ℚ) / 5) :=
  c3_stop_defers_reconciliation cfgFull sinkOk stopCexState
    ⟨1, 100, 5, false⟩ 1 rfl rfl

/-- A quiescent cover whose position estimate is the fractional 49.6. -/
def noopCexState : SysState :=
  { initState with position := 248/5 }

/-- Python `round(0) = 0`. -/
theorem pyRound_zero : pyRound 0 = 0 := by
  rw [pyRound]
  norm_num

/-- Python `round(49.6) = 50`. -/
theorem pyRound_496 : pyRound (248/5) = 50 := by
  have hf : ⌊(248 : ℚ)/5⌋ = 49 := by
    rw [Int.floor_eq_iff] <;> norm_num
  rw [pyRound]
  norm_num [hf]

/-- C4 counterexample: with the current position 49.6 and a request whose
target equals that exact position, `_move_cover` still dispatches the
directional pulse (the skip test compares the target against the *rounded*
position, 50), so the call does not send zero commands. -/
theorem c4_counterexample :
    noopCexState.position = 248/5
    ∧ (moveCover cfgFull sinkOk noopCexState 0 "open" (248/5)).2
        = .ok ["open"] := by
  have hne : ¬ ((248 : ℚ)/5 = ((pyRound ((248 : ℚ)/5) : ℤ) : ℚ)) := by
    rw [pyRound_496]; norm_num
  refine ⟨rfl, ?_⟩
  simp [moveCover, noopCexState, initState, hne, sendCode, cmdName, cfgFull,
    sinkOk]

/-- C4 amended: with no active move, `_move_cover` is a no-op — zero
commands sent and the state unchanged — exactly when the target equals the
current position *rounded to the nearest integer* (Python `round`, half to
even), rather than the exact current position. -/
theorem c4_noop_on_rounded_position (cfg : Config)
    (sink : String → String → Except String Unit) (s : SysState)
    (elapsedPrev : ℚ) (direction : String) (targetPosition : ℚ)
    (hhandle : s.handleSet = false)
    (htgt : targetPosition = (pyRound s.position : ℚ)) :
    moveCover cfg sink s elapsedPrev direction targetPosition
      = (s, .ok []) := by
  simp [moveCover, hhandle, htgt]

/-- Witness for C4 (amended): target 50 at position 49.6 is skipped. -/
theorem c4_witness :
    moveCover cfgFull sinkOk noopCexState 0 "open" 50
      = (noopCexState, .ok []) :=
  c4_noop_on_rounded_position cfgFull sinkOk noopCexState 0 "open" 50 rfl
    (by rw [show noopCexState.position = 248/5 from rfl, pyRound_496]
        norm_num)

/-- C6 counterexample: a restored state carrying the persisted integer 150
is adopted verbatim — the startup path performs no clamping into [0,100]. -/
theorem c6_counterexample :
    restorePosition (some ("restored", some (some 150))) 0 = 150
    ∧ ¬ ((150 : ℚ) ≤ 100) := by
  constructor
  · rfl
  · norm_num

/-- C6 amended: at startup a persisted value parsable as an integer is
adopted as the current position *without clamping* (even when outside
[0,100]); the position is 0 when the attribute is absent or unparsable,
when there is no restored state, or when the restored state is "unknown"
(the constructor's initial position being 0). -/
theorem c6_restore_unclamped (st : String) (n : ℤ)
    (attr : Option (Option ℤ)) (hst : st ≠ "unknown") :
    restorePosition (some (st, some (some n))) 0 = (n : ℚ)
    ∧ restorePosition (some (st, some none)) 0 = 0
    ∧ restorePosition (some (st, none)) 0 = 0
    ∧ restorePosition none 0 = 0
    ∧ restorePosition (some ("unknown", attr)) 0 = 0 := by
  refine ⟨?_, ?_, ?_, ?_, ?_⟩ <;> simp [restorePosition, hst]

/-- Witness for C6 (amended) with the concrete persisted value 150. -/
theorem c6_witness :
    restorePosition (some ("restored", some (some 150))) 0 = ((150 : ℤ) : ℚ)
    ∧ restorePosition (some ("restored", some none)) 0 = 0
    ∧ restorePosition (some ("restored", none)) 0 = 0
    ∧ restorePosition none 0 = 0
    ∧ restorePosition (some ("unknown", some (some 150))) 0 = 0 :=
  c6_restore_unclamped "restored" 150 (some (some 150)) (by decide)

/-- After a nonempty burst, the debounce fields hold the last request's
timestamp and target, with that request's task pending. -/
theorem processBurst_eq_last (reqs : List (ℚ × ℚ)) (tN pN : ℚ)
    (h : reqs.getLast? = some (tN, pN)) (s0 : DebState) :
    processBurst s0 reqs = ⟨tN, pN, some tN⟩ := by
  induction reqs generalizing s0 with
  | nil => simp at h
  | cons r rest ih =>
    cases rest with
    | nil =>
      simp only [List.getLast?_singleton, Option.some.injEq] at h
      subst h
      rfl
    | cons r2 rest2 =>
      have h2 : (r2 :: rest2).getLast? = some (tN, pN) := by
        rwa [List.getLast?_cons_cons] at h
      exact ih h2 (setCoverPosition s0 r.1 r.2)

/-- In a burst whose consecutive requests are spaced less than `delay`
apart, every non-final debounce task is cancelled while sleeping; only the
final request's task wakes. -/
theorem burstFireTokens_of_gaps (delay : ℚ) (reqs : List (ℚ × ℚ))
    (tN pN : ℚ) (h : reqs.getLast? = some (tN, pN))
    (hgaps : reqs.Chain' (fun a b => b.1 < a.1 + delay)) :
    burstFireTokens delay reqs = [tN] := by
  induction reqs with
  | nil => simp at h
  | cons r rest ih =>
    cases rest with
    | nil =>
      simp only [List.getLast?_singleton, Option.some.injEq] at h
      subst h
      rfl
    | cons r2 rest2 =>
      have h2 : (r2 :: rest2).getLast? = some (tN, pN) := by
        rwa [List.getLast?_cons_cons] at h
      rw [List.chain'_cons] at hgaps
      rw [burstFireTokens, if_pos hgaps.1]
      simpa using ih h2 hgaps.2

/-- C5 amended: a burst of N ≥ 1 `async_set_cover_position` requests, each
issued less than `DEBOUNCE_DELAY` after the previous one, wakes exactly one
`_delayed_set` task — the last request's — and that task passes its
staleness check and hands `_move_cover` exactly the last requested
position, with the direction chosen against the current cover position;
so at most one physical move is started (none when `_move_cover` skips or
its dispatch fails). -/
theorem c5_debounce_coalescing (s0 : DebState) (coverPos : ℚ)
    (reqs : List (ℚ × ℚ)) (tN pN : ℚ)
    (hlast : reqs.getLast? = some (tN, pN))
    (hgaps : reqs.Chain' (fun a b => b.1 < a.1 + DEBOUNCE_DELAY)) :
    burstFireTokens DEBOUNCE_DELAY reqs = [tN]
    ∧ delayedSetFire (processBurst s0 reqs) tN coverPos
        = some ((if pN > coverPos then "open" else "close"), pN) := by
  refine ⟨burstFireTokens_of_gaps _ _ _ _ hlast hgaps, ?_⟩
  rw [processBurst_eq_last reqs tN pN hlast s0]
  simp [delayedSetFire]

/-- Witness for C5: three requests inside the 2.5 s window, targeting
30 then 40 then 20, with the cover at 60: only the third task fires and it
commits a "close" move to 20. -/
theorem c5_witness :
    burstFireTokens DEBOUNCE_DELAY [(0, 30), (1, 40), (2, 20)] = [2]
    ∧ delayedSetFire (processBurst ⟨0, 0, none⟩ [(0, 30), (1, 40), (2, 20)])
        2 60
        = some ((if (20 : ℚ) > 60 then "open" else "close"), 20) :=
  c5_debounce_coalescing ⟨0, 0, none⟩ 60 [(0, 30), (1, 40), (2, 20)] 2 20
    rfl (by constructor <;> norm_num [DEBOUNCE_DELAY])

/-- A quiescent cover resting at position 50. -/
def convergedState : SysState :=
  { initState with position := 50 }

/-- Python `round(50) = 50`. -/
theorem pyRound_fifty : pyRound 50 = 50 := by
  rw [pyRound]
  norm_num

/-- C5 counterexample: a burst that converges on the present position
starts no physical move.  With the cover resting at 50, two requests
(30 then 50) issued 1 s apart — within the 2.5 s debounce delay — wake
only the second request's task, which hands `("close", 50)` to
`_move_cover`; `_move_cover` then hits its skip test
(`target == round(position)`), sends zero commands and creates no
`_timed_move` task, so zero physical moves are started rather than the
claimed exactly one. -/
theorem c5_counterexample :
    delayedSetFire (processBurst ⟨0, 0, none⟩ [(0, 30), (1, 50)]) 1 50
      = some ("close", 50)
    ∧ moveCover cfgFull sinkOk convergedState 0 "close" 50
      = (convergedState, .ok []) := by
  constructor
  · show delayedSetFire ⟨1, 50, some 1⟩ 1 50 = some ("close", 50)
    rw [delayedSetFire, if_neg (show ¬((1 : ℚ) ≠ 1) by norm_num),
      if_neg (show ¬((50 : ℚ) > 50) by norm_num)]
  · have hhandle : convergedState.handleSet = false := rfl
    have h50 : (50 : ℚ) = ((pyRound convergedState.position : ℤ) : ℚ) := by
      rw [show convergedState.position = (50 : ℚ) from rfl, pyRound_fifty]
      norm_num
    simp [moveCover, hhandle, h50]

/-- C8: when the directional pulse raised by `_move_cover` fails at the
sink, the error is propagated to the caller and the state is returned
unchanged: no flags set, no position bump, no `_timed_move` task created. -/
theorem c8_dispatch_failure_propagates (cfg : Config)
    (sink : String → String → Except String Unit) (s : SysState)
    (elapsedPrev : ℚ) (direction : String) (targetPosition : ℚ)
    (dv c err : String)
    (hhandle : s.handleSet = false)
    (htgt : targetPosition ≠ (pyRound s.position : ℚ))
    (hdev : cfg.device = some dv) (hcmd : cmdName cfg direction = some c)
    (hsink : sink dv c = .error err) :
    moveCover cfg sink s elapsedPrev direction targetPosition
      = (s, .error err) := by
  simp [moveCover, hhandle, htgt, sendCode, hdev, hcmd, hsink]

/-- Witness for C8: a failing sink leaves the fresh cover untouched and
surfaces the dispatch error. -/
theorem c8_witness :
    moveCover cfgFull sinkFail initState 0 "open" 50
      = (initState, .error "dispatch failed") :=
  c8_dispatch_failure_propagates cfgFull sinkFail initState 0 "open" 50
    "dev" "OPEN" "dispatch failed" rfl
    (by rw [show initState.position = 0 from rfl, pyRound_zero]
        norm_num)
    rfl rfl rfl

/-- `markCancelled` only touches the task bookkeeping, never the flags. -/
theorem flagsOk_markCancelled (s : SysState) :
    flagsOk (markCancelled s) = flagsOk s :=
  rfl

/-- The interpolation loop only rewrites the position, never the flags. -/
theorem flagsOk_runTicks (s : SysState) (a b : ℚ) (n : ℕ) :
    ∀ k, flagsOk (runTicks s a b n k) = flagsOk s := by
  intro k
  induction k with
  | zero => rfl
  | succ k ih => exact ih

/-- The cancellation cleanup preserves the flag invariant. -/
theorem flagsOk_cancelCleanup (s : SysState) (e : ℚ)
    (h : flagsOk s = true) : flagsOk (cancelCleanup s e) = true := by
  cases htask : s.task with
  | none => simpa [cancelCleanup, htask] using h
  | some t =>
    cases hcr : t.cancelRequested with
    | false => simpa [cancelCleanup, htask, hcr] using h
    | true => simp [cancelCleanup, htask, hcr, flagsOk]

/-- `async_stop_cover` preserves the flag invariant on both outcomes of
the stop dispatch: on success it clears all three flags; on a raise it
returns the state with the flags untouched. -/
theorem flagsOk_asyncStopCover (cfg : Config)
    (sink : String → String → Except String Unit) (s : SysState)
    (h : flagsOk s = true) :
    flagsOk (asyncStopCover cfg sink s).1 = true := by
  rw [asyncStopCover]
  set s0 := (if s.handleSet = true then markCancelled s else s) with hs0def
  have h0 : flagsOk s0 = true := by
    rw [hs0def]
    split
    · rw [flagsOk_markCancelled]; exact h
    · exact h
  cases hsc : stopPulseResult cfg sink s0 with
  | error e => exact h0
  | ok sent => rfl

/-- `_move_cover` preserves the flag invariant on every path. -/
theorem flagsOk_moveCover (cfg : Config)
    (sink : String → String → Except String Unit) (s : SysState)
    (elapsedPrev : ℚ) (direction : String) (targetPosition : ℚ)
    (h : flagsOk s = true) :
    flagsOk (moveCover cfg sink s elapsedPrev direction targetPosition).1
      = true := by
  rw [moveCover]
  set s0 := (if s.handleSet = true
    then cancelCleanup (markCancelled s) elapsedPrev else s) with hs0def
  have h0 : flagsOk s0 = true := by
    rw [hs0def]
    split
    · exact flagsOk_cancelCleanup _ _ h
    · exact h
  split
  · exact h0
  · cases hsc : sendCode cfg sink direction with
    | error e => exact h0
    | ok sent => simp [flagsOk, beq_open_and_close_false]

/-- C9: every operation preserves the flag invariant `flagsOk`:
`_is_opening` and `_is_closing` are never both set, and both are clear
whenever `_is_moving` is clear — across `_move_cover` (all paths),
`async_stop_cover`, the cancellation cleanup, every interpolation tick,
and uncancelled completion. -/
theorem c9_flags_invariant (cfg : Config)
    (sink : String → String → Except String Unit) (s : SysState)
    (elapsedPrev e : ℚ) (direction : String)
    (targetPosition duration tgt a b : ℚ) (n k : ℕ)
    (h : flagsOk s = true) :
    flagsOk (moveCover cfg sink s elapsedPrev direction targetPosition).1
        = true
    ∧ flagsOk (asyncStopCover cfg sink s).1 = true
    ∧ flagsOk (cancelCleanup s e) = true
    ∧ flagsOk (runTicks s a b n k) = true
    ∧ flagsOk (timedMoveComplete cfg sink s duration tgt).1 = true := by
  refine ⟨flagsOk_moveCover cfg sink s elapsedPrev direction targetPosition h,
    flagsOk_asyncStopCover cfg sink s h, flagsOk_cancelCleanup s e h, ?_, rfl⟩
  rw [flagsOk_runTicks]
  exact h

/-- Witness for C9 at the freshly constructed cover state. -/
theorem c9_witness :
    flagsOk (moveCover cfgFull sinkOk initState 0 "open" 50).1 = true
    ∧ flagsOk (asyncStopCover cfgFull sinkOk initState).1 = true
    ∧ flagsOk (cancelCleanup initState 1) = true
    ∧ flagsOk (runTicks initState 0 50 4 2) = true
    ∧ flagsOk (timedMoveComplete cfgFull sinkOk initState 5 50).1 = true :=
  c9_flags_invariant cfgFull sinkOk initState 0 1 "open" 50 5 50 0 50 4 2 rfl

/-- C10: on a successful directional pulse `_move_cover` applies the
instant position bump of +1 for "open" and -1 otherwise, clamped to
[0,100], before computing the move duration: the post-call position is the
bumped position and the created `_timed_move` task starts there with a
duration equal to `_calculate_duration` evaluated at the bumped position
(floored at 0.1 s when nonpositive). -/
theorem c10_bump_before_duration (cfg : Config)
    (sink : String → String → Except String Unit) (s : SysState)
    (elapsedPrev : ℚ) (direction : String) (targetPosition : ℚ)
    (dv c : String)
    (hhandle : s.handleSet = false)
    (htgt : targetPosition ≠ (pyRound s.position : ℚ))
    (hdev : cfg.device = some dv) (hcmd : cmdName cfg direction = some c)
    (hsink : sink dv c = .ok ()) :
    (moveCover cfg sink s elapsedPrev direction targetPosition).1.position
        = max 0 (min 100
            (s.position + (if direction = "open" then 1 else -1)))
    ∧ (moveCover cfg sink s elapsedPrev direction targetPosition).1.task
        = some ⟨max 0 (min 100
              (s.position + (if direction = "open" then 1 else -1))),
            targetPosition,
            if calculateDuration cfg direction targetPosition
                (max 0 (min 100
                  (s.position + (if direction = "open" then 1 else -1)))) ≤ 0
            then 1/10
            else calculateDuration cfg direction targetPosition
              (max 0 (min 100
                (s.position + (if direction = "open" then 1 else -1)))),
            false⟩ := by
  simp [moveCover, hhandle, htgt, sendCode, hdev, hcmd, hsink]

/-- Witness for C10: opening the fresh cover toward 50 bumps 0 to 1 and
times the move from position 1. -/
theorem c10_witness :
    (moveCover cfgFull sinkOk initState 0 "open" 50).1.position
        = max 0 (min 100
            (initState.position + (if "open" = "open" then 1 else -1)))
    ∧ (moveCover cfgFull sinkOk initState 0 "open" 50).1.task
        = some ⟨max 0 (min 100
              (initState.position + (if "open" = "open" then 1 else -1))),
            50,
            if calculateDuration cfgFull "open" 50
                (max 0 (min 100
                  (initState.position
                    + (if "open" = "open" then 1 else -1)))) ≤ 0
            then 1/10
            else calculateDuration cfgFull "open" 50
              (max 0 (min 100
                (initState.position + (if "open" = "open" then 1 else -1)))),
            false⟩ :=
  c10_bump_before_duration cfgFull sinkOk initState 0 "open" 50 "dev" "OPEN"
    rfl
    (by rw [show initState.position = 0 from rfl, pyRound_zero]
        norm_num)
    rfl rfl rfl

end BroadlinkCover
